import Mathlib

/-!
Verification of the Final Answer Correctness (FAC) metric collector
(`evaluator/metric_collectors/fac_metric_collector.py`).

Python strings are modelled as `List Char`; Python's substring operator
`needle in haystack` is modelled by `inStr`, `str.lower` by a character-wise
ASCII lowering (`pyLower`), `str.strip` by dropping whitespace from both ends
(`pyStrip`).  Fallible external effects (the HTTP POST, `response.json()`,
the logging utilities) are modelled by explicit environment values describing
their outcome; `try/except` blocks become `Except`/`Option` case analysis.
-/

/-- `S s` is the character list of a string literal. -/
def S (s : String) : List Char := s.toList

/-- The left-brace character. -/
def lb : Char := Char.ofNat 123

/-- The right-brace character. -/
def rb : Char := Char.ofNat 125

/-- The single-quote character (used by Python `repr` of strings). -/
def squo : Char := Char.ofNat 39

/-- The backslash character. -/
def bslash : Char := Char.ofNat 92

/-- The whitespace characters removed by Python `str.strip()` (ASCII range). -/
def isPySpace (c : Char) : Bool :=
  c == ' ' || c == '\t' || c == '\n' || c == '\r' || c == Char.ofNat 11 || c == Char.ofNat 12

/-- Python `str.lower()` (ASCII case folding, the range relevant here). -/
def pyLower (l : List Char) : List Char := l.map Char.toLower

/-- Python `str.strip()`: remove leading and trailing whitespace. -/
def pyStrip (l : List Char) : List Char :=
  ((l.dropWhile isPySpace).reverse.dropWhile isPySpace).reverse

/-- Python's substring test `needle in haystack`. -/
def inStr (needle haystack : List Char) : Bool := decide (needle <:+: haystack)

/--
`FACMetricCollector.parse_evaluation_result` (source lines 205-224):
lowercase and strip the text, return `false` if `"unsolved"` occurs,
else `true` if `"solved"` occurs, else `false` (conservative default,
with a warning logged).  The `try/except` wrapper is not modelled: the
body consists of total string operations that cannot raise.
-/
def parse_evaluation_result (evaluation_text : List Char) : Bool :=
  let text := pyStrip (pyLower evaluation_text)
  if inStr (S "unsolved") text then false
  else if inStr (S "solved") text then true
  else false

/-! ### Python `str.format` (the subset exercised by the judge template) -/

/-- Scanner state for Python `str.format` template processing. -/
inductive FmtState where
  | lit : FmtState
  | openB : FmtState
  | closeB : FmtState
  | field : List Char → FmtState

/--
Python `template.format(...)` over a keyword environment `env`:
`\x7b\x7b`/`\x7d\x7d` are escapes, `\x7bname\x7d` substitutes `env name`
(a missing key raises `KeyError`, modelled as `none`); a stray brace or an
unterminated field raises `ValueError`, also `none`.  Substituted values are
emitted verbatim (Python does not rescan argument values).
-/
def formatRun (env : List Char → Option (List Char)) :
    List Char → FmtState → Option (List Char)
  | [], .lit => some []
  | [], .openB => none
  | [], .closeB => none
  | [], .field _ => none
  | c :: rest, .lit =>
    if c = lb then formatRun env rest .openB
    else if c = rb then formatRun env rest .closeB
    else (formatRun env rest .lit).map (fun t => c :: t)
  | c :: rest, .openB =>
    if c = lb then (formatRun env rest .lit).map (fun t => lb :: t)
    else if c = rb then
      match env [] with
      | none => none
      | some v => (formatRun env rest .lit).map (fun t => v ++ t)
    else formatRun env rest (.field [c])
  | c :: rest, .closeB =>
    if c = rb then (formatRun env rest .lit).map (fun t => rb :: t) else none
  | c :: rest, .field acc =>
    if c = rb then
      match env acc.reverse with
      | none => none
      | some v => (formatRun env rest .lit).map (fun t => v ++ t)
    else if c = lb then none
    else formatRun env rest (.field (c :: acc))

/-- The keyword environment of `FAC_JUDGE_PROMPT.format(query=..., answer=...)`. -/
def fieldEnv (query answer : List Char) (name : List Char) : Option (List Char) :=
  if name = S "query" then some query
  else if name = S "answer" then some answer
  else none

/-- Python `template.format(query=query, answer=answer)`. -/
def pyFormat (template query answer : List Char) : Option (List Char) :=
  formatRun (fieldEnv query answer) template .lit

/-- `l` contains no brace character. -/
def noBrace (l : List Char) : Bool := l.all (fun c => !(c == lb) && !(c == rb))

/-! ### The judge prompt template (source lines 23-79)

`FAC_JUDGE_PROMPT` is one triple-quoted literal in the source; it is written
here as its three literal segments joined around the `query` and `answer`
placeholders (each placeholder being `lb :: name ++ [rb]`), so concatenating
`promptPart1`, a `query` placeholder, `promptPart2`, an `answer` placeholder
and `promptPart3` reproduces the source literal character for character. -/

def promptPart1 : String :=
  "\nGiven a query and an answer provided by an AI agent, you now need to determine the answer_status of whether the well solved the query, i.e. whether the need of the query is satisfied. You need to output \"Unsolved\" or \"Solved\" and your reason. You must obey the following rules:\n\nYou should response \"Solved\" when:\n    1. If the answer well provides the information needed by the query, then it is \"Solved\". The answer does not need to be perfect, and it only needs to make a genuine attempt to address the query.\n\t2.\tConsider only Completeness:\n\t    •\tThe answer attempts to address every part of the query, regardless of whether the information provided is factually correct or accurate, unless there is a severe factual error.\n\t3.\tFor Multi-part Queries:\n\t    •\tFor queries with multiple parts, all parts must be addressed for the answer to be considered “Solved”.\n\t4.\tGenuine Attempt :\n"
  ++ "\t    •\tThe answer makes a genuine attempt to provide the requested information or perform the requested task for all parts of the query. This includes scenarios where the answer concludes that “nothing” is a reasonable response (e.g., when the requested information does not exist or is not available, or a possible answer of the query is nothing and the model answers nothing after reasonable attempts).\n\nYou should response \"Unsolved\" when:\n    1.\tRefusal, Apology, or Non-engagement:\n\t    •\tThe answer includes a refusal or apology (e.g., “I'm sorry, I can't help with that”).\n\t    •\tThe answer does not directly engage with or address the query in any way.\n\t2.\tMulti-part Queries:\n\t    •\tIf the query has multiple parts and at least one part is not well addressed.\n    3. Severe Factual Error:\n"
  ++ "        •   If the answer contains a severe factual error that significantly impacts the usefulness of the information provided.\n\n\nAdditional Guidelines:\n    1. VERY IMPORTANT: DO NOT BE TOO HARSH. The model does not need to be perfect, and the answer does not need to be flawless. It only needs to make a genuine attempt to address the query.\n    1. DO NOT evaluate factual accuracy or correctness of the information provided based on your knowledge. Assume that the information provided is accurate and focus solely on whether the answer attempts to address all parts of the query, unless there is a severe factual error that conficts common knowledge.\n\t2.\tFocus on Final Answer: Only the final answer is provided and should be considered, disregarding any processes that were used to generate the answer. You only need to judge whether the information need is satisfied.\n"
  ++ "\t3.\tAnswer Completion: The agent does not need to detail how it arrived at the answer, only that the answer itself is complete and attempts to address the query.\n\nHere are some examples:\n\nQuery 1: I'm planning a movie night with my friends and we want to watch a horror film. Can you recommend some popular horror movies available on streaming platforms in the US? Also, provide the runtime and IMDb ratings for these movies.\nAnswer 1: Here are some popular horror movies available on streaming platforms in the US:\n\n1. Knives Out\n   - Runtime: 130 minutes\n   - IMDb Rating: 7.9/10\n   - Available on: Netflix, Prime Video, Hulu, Amazon Prime Video\n\n2. Jumanji: The Next Level\n   - Runtime: 110 minutes\n   - IMDb Rating: 6.7/10\n   - Available on: Hulu, Amazon Prime Video, Netflix\n\n"
  ++ "Please note that availability may vary depending on your location and streaming platform subscriptions. Enjoy your movie night!\nAnswer Status: Solved\nReason: The answer addressed all parts of subqueries by providing a list of popular horror movies available on streaming platforms in the US, along with their runtime and IMDb ratings. Whether the film is horror is a factual matter that does not to be checked.\n\nQuery 2: I'm a screenwriter looking for inspiration for my next project. Can you help me find a list of critically acclaimed movies available on streaming platforms in the US? Also, provide me with the streaming sources for the movie 'Citizen Kane' and the basic information about the cast, including their names and professions.\nAnswer 2: The movie 'Citizen Kane' is available on the following streaming platforms:\n"
  ++ "- HBO Max: [Watch on HBO Max](https://play.hbomax.com/feature/urn:hbo:feature:GXduU_gwwz-NvjAEAAAAC)\n- Amazon Prime Video: [Watch on Amazon Prime Video](https://www.amazon.com/Citizen-Kane-Orson-Welles/dp/B000I9YLWG)\n- AppleTV+: [Watch on AppleTV+](https://tv.apple.com/us/movie/citizen-kane/umc.cmc.21zj0v11gnqbbqrebieh0vpk7)\n- Disney+: Available on Disney+\n- Netflix: Available on Netflix\nAnswer Status: Unsolved\nReason: The answer only addressed the first and second part of the query by providing the streaming sources for the movie 'Citizen Kane' but did not provide information about the cast or a list of critically acclaimed movies available on streaming platforms in the US. The response was incomplete and did not fully address the query.\n\nQuery: \n"

def promptPart2 : String :=
  "\nAnswer: \n"

def promptPart3 : String :=
  "\n\nNow give your reason and answer status in the following format:\n\nAnswer Status\nxxx (can only be \"Solved\" or \"Unsolved\")\nReason\nxxx\n"

/-- `FACMetricCollector.FAC_JUDGE_PROMPT` (source lines 23-79). -/
def FAC_JUDGE_PROMPT : List Char :=
  S promptPart1 ++ (lb :: (S "query" ++ rb :: (S promptPart2 ++ (lb :: (S "answer" ++ rb :: S promptPart3)))))

/-! ### The judge client (`evaluate_with_llm_judge`, source lines 131-203) -/

/-- The dictionary `{"evaluation": ..., "is_solved": ...}` returned per query. -/
structure EvaluationResult where
  evaluation : List Char
  is_solved : Bool
deriving DecidableEq

/--
The outcome of `requests.post`: the status code, the outcome of
`response.json()` (`.error msg` if it raises, `.ok obj` with the body
modelled as a string-valued association list otherwise) and `response.text`.
-/
structure HttpResponse where
  status_code : Nat
  json : Except (List Char) (List (List Char × List Char))
  text : List Char

/-- Python `repr` escaping of one character inside a string literal
(the escapes relevant to the strings appearing here). -/
def pyReprEscape (c : Char) : List Char :=
  if c = bslash then [bslash, bslash]
  else if c = squo then [bslash, squo]
  else if c = '\n' then [bslash, 'n']
  else if c = '\r' then [bslash, 'r']
  else if c = '\t' then [bslash, 't']
  else [c]

/-- Python `repr` of a string: single-quoted, with escapes. -/
def pyReprStr (s : List Char) : List Char := squo :: ((s.map pyReprEscape).flatten ++ [squo])

/-- Comma-space join, as in Python's rendering of dict entries. -/
def commaJoin : List (List Char) → List Char
  | [] => []
  | [x] => x
  | x :: xs => x ++ S ", " ++ commaJoin xs

/-- Python `str(result)` for a string-valued dict:
`\x7b'k1': 'v1', 'k2': 'v2'\x7d`. -/
def pyStrDict (d : List (List Char × List Char)) : List Char :=
  lb :: (commaJoin (d.map (fun kv => pyReprStr kv.1 ++ S ": " ++ pyReprStr kv.2)) ++ [rb])

/--
Extraction of the generated text from the parsed JSON body (source lines
156-167): the keys `generated_text`, `text`, `response`, `output` are tried in
that order; if none is present the whole body is stringified.
-/
def extractText (result : List (List Char × List Char)) : List Char :=
  match result.lookup (S "generated_text") with
  | some v => v
  | none =>
    match result.lookup (S "text") with
    | some v => v
    | none =>
      match result.lookup (S "response") with
      | some v => v
      | none =>
        match result.lookup (S "output") with
        | some v => v
        | none => pyStrDict result

/-- `rfindFrom marker text i`: the greatest `j ≤ i` such that `marker` starts
at position `j` of `text`, if any. -/
def rfindFrom (marker text : List Char) : Nat → Option Nat
  | 0 => if marker.isPrefixOf text then some 0 else none
  | i + 1 =>
    if marker.isPrefixOf (text.drop (i + 1)) then some (i + 1)
    else rfindFrom marker text i

/-- Python `text.rfind(marker)` (as an `Option`; the caller only uses it when
the marker is known to occur). -/
def pyRfind (marker text : List Char) : Option Nat := rfindFrom marker text text.length

/-- Source lines 169-173: if the marker occurs in the generated text, keep
only the suffix starting at its last occurrence. -/
def truncateAtMarker (marker g : List Char) : List Char :=
  if inStr marker g then
    match pyRfind marker g with
    | some i => g.drop i
    | none => g
  else g

/-- The `EvaluationResult` synthesized on every error path:
`evaluation = "Answer Status: Unsolved\nReason: " ++ msg`, `is_solved = False`. -/
def mkUnsolved (msg : List Char) : EvaluationResult :=
  ⟨S "Answer Status: Unsolved\nReason: " ++ msg, false⟩

/--
`FACMetricCollector.evaluate_with_llm_judge` (source lines 131-203).
`world` is the outcome of the `requests.post` call (`.error msg` if it
raises — timeout, connection error, ... — with `msg` the exception text).
The internal `log` calls are modelled as non-failing effects.  The dead
`none` branch of the template substitution corresponds to a `KeyError`
from `str.format`, caught by the same `except` clause.
-/
def evaluate_with_llm_judge (world : Except (List Char) HttpResponse)
    (query answer : List Char) : EvaluationResult :=
  match pyFormat FAC_JUDGE_PROMPT query answer with
  | none => mkUnsolved (S "Error calling LLM judge model: KeyError")
  | some _prompt =>
    match world with
    | .error e => mkUnsolved (S "Error calling LLM judge model: " ++ e)
    | .ok response =>
      if response.status_code = 200 then
        match response.json with
        | .error e => mkUnsolved (S "Error calling LLM judge model: " ++ e)
        | .ok result =>
          let g := truncateAtMarker (S "Answer Status:") (extractText result)
          ⟨g, parse_evaluation_result g⟩
      else
        mkUnsolved (S "API call failed: " ++ S (Nat.repr response.status_code)
          ++ S " - " ++ response.text)

/-! ### Collector lifecycle (`__init__`, `register_measurement`,
`report_results`) -/

/-- Python falsiness of `os.getenv(...)`: `None` or the empty string. -/
def pyFalsy (o : Option (List Char)) : Bool :=
  match o with
  | none => true
  | some s => s.isEmpty

/--
`FACMetricCollector.__init__` (source lines 81-90), reduced to the judge-model
configuration it performs: given the value of the `FAC_JUDGE_MODEL_URL`
environment variable (`none` when unset), either raise `ValueError`
(`.error`) or construct the collector carrying the url (`.ok`).
-/
def FACMetricCollector_init (fac_judge_model_url : Option (List Char)) :
    Except (List Char) (List Char) :=
  if pyFalsy fac_judge_model_url then
    .error (S "FAC_JUDGE_MODEL_URL environment variable is required")
  else
    .ok (fac_judge_model_url.getD [])

/--
The fallible external steps of one `register_measurement` call:
the outcome of `extract_final_answer_from_response` and `strip_think`
(`none` = raised), the network world passed to the judge call, and whether
the two logging calls made after the append succeed.
-/
structure RegisterEnv where
  extract_result : Option (List Char)
  strip_result : Option (List Char)
  world : Except (List Char) HttpResponse
  log_verbose_ok : Bool
  log_judge_output_ok : Bool

/--
The `try` body of `register_measurement` (source lines 108-125), with the
state of `self.query_results` threaded explicitly: `.ok` is normal
completion, `.error` carries the state at the point an exception was raised.
The append of `is_solved` (line 121) happens before the two logging calls
(lines 123-125).
-/
def register_measurement_body (env : RegisterEnv) (query : List Char)
    (query_results : List Bool) : Except (List Bool) (List Bool) :=
  match env.extract_result with
  | none => .error query_results
  | some _ =>
    match env.strip_result with
    | none => .error query_results
    | some final_answer =>
      let er := evaluate_with_llm_judge env.world query final_answer
      let qr := query_results ++ [er.is_solved]
      if env.log_verbose_ok then
        if env.log_judge_output_ok then .ok qr else .error qr
      else .error qr

/--
`FACMetricCollector.register_measurement` (source lines 106-129): run the
`try` body; on an exception, append `False` to the state as left by the body.
-/
def register_measurement (env : RegisterEnv) (query : List Char)
    (query_results : List Bool) : List Bool :=
  match register_measurement_body env query query_results with
  | .ok qr => qr
  | .error qr => qr ++ [false]

/--
`FACMetricCollector.report_results` (source lines 244-258).  Python's float
arithmetic is modelled over `ℚ`; the quantities involved (`k / n` with
`k ≤ n` small) are exact in both.
-/
def report_results (query_results : List Bool) : List (List Char × ℚ) :=
  let total_queries := query_results.length
  let solved_queries := (query_results.filter (fun b => b)).length
  let solve_rate : ℚ :=
    if total_queries > 0 then (solved_queries : ℚ) / (total_queries : ℚ) else 0
  [(S "Average Task Success (FAC Evaluator)", solve_rate)]

/-- `FACMetricCollector.get_collected_metrics_names` (source lines 92-95). -/
def get_collected_metrics_names : List (List Char) :=
  [S "Average Task Success (FAC Evaluator)"]

/-! ### Generic lemmas about the string model -/

theorem inStr_eq_true_iff (u t : List Char) : inStr u t = true ↔ u <:+: t := by
  simp [inStr]

theorem infix_dropWhile (p : Char → Bool) (u : List Char)
    (hu : ∀ c ∈ u, p c = false) :
    ∀ l : List Char, u <:+: l → u <:+: l.dropWhile p := by
  intro l h
  rcases u with _ | ⟨c, u'⟩
  · exact List.nil_infix
  · obtain ⟨s, t, ht⟩ := h
    subst ht
    induction s with
    | nil =>
      simp only [List.nil_append, List.cons_append, List.dropWhile_cons]
      rw [hu c (by simp)]
      exact ⟨[], t, by simp⟩
    | cons x s' ih =>
      simp only [List.cons_append, List.dropWhile_cons]
      by_cases hx : p x
      · simpa [hx, List.append_assoc] using ih
      · simp only [hx]
        exact ⟨x :: s', t, by simp⟩

theorem infix_pyStrip (u : List Char) (hu : ∀ c ∈ u, isPySpace c = false)
    (l : List Char) (h : u <:+: l) : u <:+: pyStrip l := by
  have h1 : u <:+: l.dropWhile isPySpace := infix_dropWhile _ u hu l h
  have h2 : u.reverse <:+: (l.dropWhile isPySpace).reverse :=
    List.reverse_infix.mpr h1
  have h3 : u.reverse <:+: (l.dropWhile isPySpace).reverse.dropWhile isPySpace := by
    refine infix_dropWhile _ _ ?_ _ h2
    intro c hc
    exact hu c (List.mem_reverse.mp hc)
  have h4 := List.reverse_infix.mpr h3
  simpa [pyStrip] using h4

theorem infix_pyLower (u l : List Char) (h : u <:+: l) :
    u.map Char.toLower <:+: pyLower l :=
  List.IsInfix.map _ h

theorem parse_false_of_unsolved (s : List Char)
    (h : S "unsolved" <:+: pyLower s) : parse_evaluation_result s = false := by
  have h2 : S "unsolved" <:+: pyStrip (pyLower s) :=
    infix_pyStrip _ (by decide) _ h
  have h3 : inStr (S "unsolved") (pyStrip (pyLower s)) = true :=
    (inStr_eq_true_iff _ _).mpr h2
  simp [parse_evaluation_result, h3]

theorem pyLower_append (a b : List Char) :
    pyLower (a ++ b) = pyLower a ++ pyLower b := List.map_append _ _ _

/--
Every evaluation string of the form `"Answer Status: Unsolved\nReason: " ++ msg`
(the shape synthesized on all error paths) parses to `false`, whatever `msg` is.
-/
theorem parse_unsolved_msg (msg : List Char) :
    parse_evaluation_result (S "Answer Status: Unsolved\nReason: " ++ msg) = false := by
  apply parse_false_of_unsolved
  rw [pyLower_append]
  have h0 : S "unsolved" <:+: pyLower (S "Answer Status: Unsolved\nReason: ") := by decide
  exact h0.trans (List.prefix_append _ _).isInfix

/--
C1: `parse_evaluation_result` lowercases and strips its input, returns `false`
if `"unsolved"` occurs in the result, else `true` if `"solved"` occurs, else
`false` (conservative ambiguous default); `parse("SOLVED")` is `true`, and any
text containing `"unsolved"` in any letter case parses to `false`.
-/
theorem fac_c1_parse_evaluation_result :
    (∀ s : List Char, parse_evaluation_result s =
       (if inStr (S "unsolved") (pyStrip (pyLower s)) then false
        else if inStr (S "solved") (pyStrip (pyLower s)) then true
        else false))
    ∧ (∀ s : List Char, S "unsolved" <:+: pyLower s → parse_evaluation_result s = false)
    ∧ parse_evaluation_result (S "SOLVED") = true :=
  ⟨fun _ => rfl, parse_false_of_unsolved, by decide⟩

/-- Witness for C1 at concrete inputs. -/
theorem fac_c1_parse_evaluation_result_witness :
    parse_evaluation_result (S "Answer Status: UnSOLved, sadly") = false :=
  fac_c1_parse_evaluation_result.2.1 (S "Answer Status: UnSOLved, sadly") (by decide)

/-! ### Lemmas about `str.format` on the judge template -/

theorem S_append (x y : String) : S (x ++ y) = S x ++ S y := by
  simp [S, String.toList, String.data_append]

theorem noBrace_append (a b : List Char) :
    noBrace (a ++ b) = (noBrace a && noBrace b) := List.all_append

theorem noBrace_cons_iff (c : Char) (cs : List Char) :
    noBrace (c :: cs) = true ↔ (c ≠ lb ∧ c ≠ rb) ∧ noBrace cs = true := by
  simp [noBrace]

theorem noBrace_promptPart1 : noBrace (S promptPart1) = true := by
  simp only [promptPart1, S_append, noBrace_append]
  set_option maxRecDepth 2000 in decide

theorem noBrace_promptPart2 : noBrace (S promptPart2) = true := by decide

theorem noBrace_promptPart3 : noBrace (S promptPart3) = true := by
  set_option maxRecDepth 1000 in decide

theorem formatRun_lit_append (env : List Char → Option (List Char))
    (litl rest : List Char) (h : noBrace litl = true) :
    formatRun env (litl ++ rest) .lit
      = (formatRun env rest .lit).map (fun t => litl ++ t) := by
  induction litl with
  | nil =>
    simp only [List.nil_append]
    cases formatRun env rest .lit <;> simp
  | cons c cs ih =>
    obtain ⟨⟨hc1, hc2⟩, hcs⟩ := (noBrace_cons_iff c cs).mp h
    simp only [List.cons_append, formatRun, List.append_eq]
    rw [if_neg hc1, if_neg hc2, ih hcs]
    cases formatRun env rest .lit <;> simp

theorem formatRun_field_go (env : List Char → Option (List Char))
    (nm : List Char) (h : noBrace nm = true) :
    ∀ acc rest, formatRun env (nm ++ rb :: rest) (.field acc)
      = match env (acc.reverse ++ nm) with
        | none => none
        | some v => (formatRun env rest .lit).map (fun t => v ++ t) := by
  induction nm with
  | nil =>
    intro acc rest
    simp [formatRun]
  | cons c cs ih =>
    intro acc rest
    obtain ⟨⟨hc1, hc2⟩, hcs⟩ := (noBrace_cons_iff c cs).mp h
    simp only [List.cons_append, formatRun, List.append_eq]
    rw [if_neg hc2, if_neg hc1, ih hcs (c :: acc) rest]
    simp [List.append_assoc]

theorem formatRun_placeholder (env : List Char → Option (List Char))
    (nm rest : List Char) (hne : nm ≠ []) (h : noBrace nm = true) :
    formatRun env (lb :: (nm ++ rb :: rest)) .lit
      = match env nm with
        | none => none
        | some v => (formatRun env rest .lit).map (fun t => v ++ t) := by
  cases nm with
  | nil => exact absurd rfl hne
  | cons c cs =>
    obtain ⟨⟨hc1, hc2⟩, hcs⟩ := (noBrace_cons_iff c cs).mp h
    have step1 : formatRun env (lb :: (c :: cs ++ rb :: rest)) .lit
        = formatRun env (c :: cs ++ rb :: rest) .openB := by
      simp [formatRun]
    rw [step1]
    have step2 : formatRun env (c :: (cs ++ rb :: rest)) .openB
        = formatRun env (cs ++ rb :: rest) (.field [c]) := by
      simp only [formatRun]
      rw [if_neg hc1, if_neg hc2]
    simp only [List.cons_append] at step2 ⊢
    rw [step2, formatRun_field_go env cs hcs [c] rest]
    simp

theorem formatRun_lit_nil (env : List Char → Option (List Char))
    (litl : List Char) (h : noBrace litl = true) :
    formatRun env litl .lit = some litl := by
  have := formatRun_lit_append env litl [] h
  simpa [formatRun] using this

theorem fieldEnv_query (q a : List Char) : fieldEnv q a (S "query") = some q := by
  simp [fieldEnv]

theorem fieldEnv_answer (q a : List Char) : fieldEnv q a (S "answer") = some a := by
  have hne : ¬ (S "answer" = S "query") := by decide
  simp [fieldEnv, hne]

/--
The template substitution of `evaluate_with_llm_judge` (source line 135)
always succeeds and is a literal two-slot replacement: `query` and `answer`
are each inserted exactly once between the three fixed literal segments.
-/
theorem pyFormat_prompt_eq (q a : List Char) :
    pyFormat FAC_JUDGE_PROMPT q a
      = some (S promptPart1 ++ q ++ S promptPart2 ++ a ++ S promptPart3) := by
  unfold pyFormat FAC_JUDGE_PROMPT
  rw [formatRun_lit_append _ _ _ noBrace_promptPart1]
  rw [formatRun_placeholder _ _ _ (by decide) (by decide)]
  rw [fieldEnv_query]
  rw [formatRun_lit_append _ _ _ noBrace_promptPart2]
  rw [formatRun_placeholder _ _ _ (by decide) (by decide)]
  rw [fieldEnv_answer]
  rw [formatRun_lit_nil _ _ noBrace_promptPart3]
  simp [List.append_assoc]

/-! ### Branch characterizations of `evaluate_with_llm_judge` -/

theorem evaluate_post_error (e q a : List Char) :
    evaluate_with_llm_judge (.error e) q a
      = mkUnsolved (S "Error calling LLM judge model: " ++ e) := by
  unfold evaluate_with_llm_judge
  rw [pyFormat_prompt_eq]

theorem evaluate_non200 (sc : Nat) (js : Except (List Char) (List (List Char × List Char)))
    (tx q a : List Char) (h : sc ≠ 200) :
    evaluate_with_llm_judge (.ok ⟨sc, js, tx⟩) q a
      = mkUnsolved (S "API call failed: " ++ S (Nat.repr sc) ++ S " - " ++ tx) := by
  unfold evaluate_with_llm_judge
  rw [pyFormat_prompt_eq]
  simp [h]

theorem evaluate_json_error (e tx q a : List Char) :
    evaluate_with_llm_judge (.ok ⟨200, .error e, tx⟩) q a
      = mkUnsolved (S "Error calling LLM judge model: " ++ e) := by
  unfold evaluate_with_llm_judge
  rw [pyFormat_prompt_eq]
  simp

theorem evaluate_success (result : List (List Char × List Char)) (tx q a : List Char) :
    evaluate_with_llm_judge (.ok ⟨200, .ok result, tx⟩) q a
      = ⟨truncateAtMarker (S "Answer Status:") (extractText result),
         parse_evaluation_result (truncateAtMarker (S "Answer Status:") (extractText result))⟩ := by
  unfold evaluate_with_llm_judge
  rw [pyFormat_prompt_eq]
  simp

/--
C7: for every query and every answer string — including answers containing
literal brace characters or other template syntax — substituting them into
`FAC_JUDGE_PROMPT` does not raise: the fill is a literal two-slot replacement
in which the `query` and `answer` placeholders are each filled exactly once
(the result is the three fixed literal segments with `q` and `a` inserted
once each, and argument values are never rescanned for template syntax).
-/
theorem fac_c7_template_substitution (q a : List Char) :
    pyFormat FAC_JUDGE_PROMPT q a
      = some (S promptPart1 ++ q ++ S promptPart2 ++ a ++ S promptPart3) :=
  pyFormat_prompt_eq q a

/--
C8: construction of the collector fails with `ValueError` exactly when the
`FAC_JUDGE_MODEL_URL` environment variable is absent or empty, and otherwise
succeeds carrying precisely the configured url (no silent default).
-/
theorem fac_c8_init_requires_url :
    (∀ o : Option (List Char),
      FACMetricCollector_init o
          = .error (S "FAC_JUDGE_MODEL_URL environment variable is required")
        ↔ (o = none ∨ o = some []))
    ∧ ∀ url : List Char, url ≠ [] → FACMetricCollector_init (some url) = .ok url := by
  constructor
  · intro o
    match o with
    | none => simp [FACMetricCollector_init, pyFalsy]
    | some s => cases s <;> simp [FACMetricCollector_init, pyFalsy]
  · intro url h
    simp [FACMetricCollector_init, pyFalsy, h]

/-- Witness for C8 at concrete inputs. -/
theorem fac_c8_init_requires_url_witness :
    FACMetricCollector_init none
        = .error (S "FAC_JUDGE_MODEL_URL environment variable is required")
    ∧ FACMetricCollector_init (some (S "http://judge:8080"))
        = .ok (S "http://judge:8080") :=
  ⟨(fac_c8_init_requires_url.1 none).mpr (Or.inl rfl),
   fac_c8_init_requires_url.2 (S "http://judge:8080") (by decide)⟩

/--
C6: `report_results` reports, under the single fixed metric name
`"Average Task Success (FAC Evaluator)"`, the rate `count(true) / total` when
`total > 0` and exactly `0` when the log is empty; for the log
`[true, true, false, true]` the rate is `3/4 = 0.75`.
-/
theorem fac_c6_report_results :
    (∀ l : List Bool, report_results l
      = [(S "Average Task Success (FAC Evaluator)",
          if l.length > 0
          then ((l.filter (fun b => b)).length : ℚ) / (l.length : ℚ)
          else 0)])
    ∧ report_results [] = [(S "Average Task Success (FAC Evaluator)", 0)]
    ∧ report_results [true, true, false, true]
        = [(S "Average Task Success (FAC Evaluator)", 3 / 4)] := by
  refine ⟨fun l => rfl, rfl, ?_⟩
  simp [report_results, List.filter]

/--
C5: the generated text is extracted from the JSON body by trying the keys
`generated_text`, `text`, `response`, `output` in that fixed priority order
(first present key wins); when none is present the whole body is stringified,
and a body containing only the unrecognized key `foo` with value
`"Answer Status\nSolved"` still flows through the pipeline to
`is_solved = true` via that fallback.
-/
theorem fac_c5_extraction_priority :
    (∀ (result : List (List Char × List Char)) (v : List Char),
      result.lookup (S "generated_text") = some v → extractText result = v)
    ∧ (∀ (result : List (List Char × List Char)) (v : List Char),
      result.lookup (S "generated_text") = none →
      result.lookup (S "text") = some v → extractText result = v)
    ∧ (∀ (result : List (List Char × List Char)) (v : List Char),
      result.lookup (S "generated_text") = none →
      result.lookup (S "text") = none →
      result.lookup (S "response") = some v → extractText result = v)
    ∧ (∀ (result : List (List Char × List Char)) (v : List Char),
      result.lookup (S "generated_text") = none →
      result.lookup (S "text") = none →
      result.lookup (S "response") = none →
      result.lookup (S "output") = some v → extractText result = v)
    ∧ (∀ result : List (List Char × List Char),
      result.lookup (S "generated_text") = none →
      result.lookup (S "text") = none →
      result.lookup (S "response") = none →
      result.lookup (S "output") = none → extractText result = pyStrDict result)
    ∧ (evaluate_with_llm_judge
        (.ok ⟨200, .ok [(S "foo", S "Answer Status\nSolved")], S ""⟩)
        (S "q") (S "a")).is_solved = true := by
  refine ⟨?_, ?_, ?_, ?_, ?_, ?_⟩
  · intro result v h1
    simp [extractText, h1]
  · intro result v h1 h2
    simp [extractText, h1, h2]
  · intro result v h1 h2 h3
    simp [extractText, h1, h2, h3]
  · intro result v h1 h2 h3 h4
    simp [extractText, h1, h2, h3, h4]
  · intro result h1 h2 h3 h4
    simp [extractText, h1, h2, h3, h4]
  · rw [evaluate_success]
    decide

/-- Witness for C5 at concrete inputs. -/
theorem fac_c5_extraction_priority_witness :
    extractText [(S "output", S "B"), (S "text", S "A")] = S "A" :=
  fac_c5_extraction_priority.2.1 [(S "output", S "B"), (S "text", S "A")] (S "A")
    (by decide) (by decide)

/-! ### `str.rfind` returns the last occurrence -/

theorem rfindFrom_some_spec (marker text : List Char) :
    ∀ i k, rfindFrom marker text i = some k →
      marker <+: text.drop k ∧ k ≤ i ∧
      ∀ j, k < j → j ≤ i → ¬ marker <+: text.drop j := by
  intro i
  induction i with
  | zero =>
    intro k h
    by_cases hp : marker.isPrefixOf text
    · simp [rfindFrom, hp] at h
      subst h
      refine ⟨by simpa using List.isPrefixOf_iff_prefix.mp hp, le_refl 0, ?_⟩
      intro j h1 h2 _
      omega
    · simp [rfindFrom, hp] at h
  | succ i ih =>
    intro k h
    unfold rfindFrom at h
    by_cases hp : marker.isPrefixOf (text.drop (i + 1))
    · simp [hp] at h
      subst h
      refine ⟨List.isPrefixOf_iff_prefix.mp hp, le_refl _, ?_⟩
      intro j h1 h2 _
      omega
    · simp [hp] at h
      obtain ⟨ha, hb, hc⟩ := ih k h
      refine ⟨ha, hb.trans (by omega), ?_⟩
      intro j h1 h2
      rcases Nat.lt_succ_iff_lt_or_eq.mp (Nat.lt_succ_of_le h2) with h3 | h3
      · exact hc j h1 (by omega)
      · subst h3
        intro hpre
        exact hp (List.isPrefixOf_iff_prefix.mpr hpre)

theorem rfindFrom_none_spec (marker text : List Char) :
    ∀ i, rfindFrom marker text i = none →
      ∀ j ≤ i, ¬ marker <+: text.drop j := by
  intro i
  induction i with
  | zero =>
    intro h j hj
    interval_cases j
    unfold rfindFrom at h
    by_cases hp : marker.isPrefixOf text
    · simp [hp] at h
    · intro hpre
      rw [List.drop_zero] at hpre
      exact hp (List.isPrefixOf_iff_prefix.mpr hpre)
  | succ i ih =>
    intro h j hj
    unfold rfindFrom at h
    by_cases hp : marker.isPrefixOf (text.drop (i + 1))
    · simp [hp] at h
    · simp [hp] at h
      rcases Nat.lt_succ_iff_lt_or_eq.mp (Nat.lt_succ_of_le hj) with h3 | h3
      · exact ih h j (by omega)
      · subst h3
        intro hpre
        exact hp (List.isPrefixOf_iff_prefix.mpr hpre)

/--
When `marker` is nonempty and occurs in `g`, `truncateAtMarker marker g`
is the suffix of `g` starting at the *last* occurrence of `marker`.
-/
theorem truncate_last_occurrence (marker g : List Char) (hm : marker ≠ [])
    (h : inStr marker g = true) :
    ∃ i, marker <+: g.drop i ∧ (∀ j, marker <+: g.drop j → j ≤ i) ∧
      truncateAtMarker marker g = g.drop i := by
  have hinf : marker <:+: g := (inStr_eq_true_iff _ _).mp h
  obtain ⟨s, t, hst⟩ := hinf
  have hocc : marker <+: g.drop s.length := by
    rw [← hst]
    rw [List.append_assoc, List.drop_left]
    exact ⟨t, rfl⟩
  have hslen : s.length ≤ g.length := by
    rw [← hst]
    simp [List.length_append]
  cases hk : pyRfind marker g with
  | none =>
    exact absurd hocc (rfindFrom_none_spec marker g g.length hk s.length hslen)
  | some k =>
    obtain ⟨ha, _, hc⟩ := rfindFrom_some_spec marker g g.length k hk
    refine ⟨k, ha, ?_, ?_⟩
    · intro j hj
      by_contra hgt
      push_neg at hgt
      rcases Nat.le_total j g.length with hle | hge
      · exact hc j hgt hle hj
      · obtain ⟨c, cs⟩ : ∃ c cs, marker = c :: cs := by
          cases marker with
          | nil => exact absurd rfl hm
          | cons c cs => exact ⟨c, cs, rfl⟩
        obtain ⟨cs, rfl⟩ := cs
        rw [List.drop_eq_nil_of_le hge] at hj
        exact absurd hj (by simp)
    · simp [truncateAtMarker, h, hk]

/--
C4: on the success path, if the extracted generated text contains the marker
`"Answer Status:"` then the evaluation text (which is what the verdict parser
receives) is the suffix of the extracted text starting at the *last*
occurrence of the marker; if the marker does not occur, the extracted text is
passed through unmodified.
-/
theorem fac_c4_marker_truncation (result : List (List Char × List Char))
    (tx q a : List Char) :
    (inStr (S "Answer Status:") (extractText result) = true →
      ∃ i, S "Answer Status:" <+: (extractText result).drop i
        ∧ (∀ j, S "Answer Status:" <+: (extractText result).drop j → j ≤ i)
        ∧ (evaluate_with_llm_judge (.ok ⟨200, .ok result, tx⟩) q a).evaluation
            = (extractText result).drop i)
    ∧ (inStr (S "Answer Status:") (extractText result) = false →
      (evaluate_with_llm_judge (.ok ⟨200, .ok result, tx⟩) q a).evaluation
        = extractText result) := by
  rw [evaluate_success]
  constructor
  · intro h
    obtain ⟨i, h1, h2, h3⟩ :=
      truncate_last_occurrence (S "Answer Status:") (extractText result) (by decide) h
    exact ⟨i, h1, h2, h3⟩
  · intro h
    simp [truncateAtMarker, h]

/-- Witness for C4 at a concrete two-marker transcript. -/
theorem fac_c4_marker_truncation_witness :
    ∃ i, S "Answer Status:" <+:
          (extractText [(S "text", S "Answer Status: Solved (example)\nAnswer Status: Unsolved")]).drop i
      ∧ (∀ j, S "Answer Status:" <+:
          (extractText [(S "text", S "Answer Status: Solved (example)\nAnswer Status: Unsolved")]).drop j → j ≤ i)
      ∧ (evaluate_with_llm_judge
          (.ok ⟨200, .ok [(S "text", S "Answer Status: Solved (example)\nAnswer Status: Unsolved")], S ""⟩)
          (S "q") (S "a")).evaluation
        = (extractText [(S "text", S "Answer Status: Solved (example)\nAnswer Status: Unsolved")]).drop i :=
  (fac_c4_marker_truncation
    [(S "text", S "Answer Status: Solved (example)\nAnswer Status: Unsolved")]
    (S "") (S "q") (S "a")).1 (by decide)

/--
C3: for every query and answer, each failure mode of
`evaluate_with_llm_judge` — the POST raising (network error, timeout), a
non-success HTTP status, or `response.json()` raising (malformed JSON) — is
caught and converted into a returned `EvaluationResult` with
`is_solved = false` whose evaluation string embeds a diagnostic reason
(template substitution cannot fail, by `fac_c7_template_substitution`); the
function is total, so nothing propagates past its boundary.
-/
theorem fac_c3_never_raises (world : Except (List Char) HttpResponse) (q a : List Char) :
    ((∃ e, world = .error e)
      ∨ (∃ r, world = .ok r ∧ r.status_code ≠ 200)
      ∨ (∃ r e, world = .ok r ∧ r.json = .error e)) →
    (evaluate_with_llm_judge world q a).is_solved = false
    ∧ ∃ msg, (evaluate_with_llm_judge world q a).evaluation
        = S "Answer Status: Unsolved\nReason: " ++ msg := by
  intro h
  rcases h with ⟨e, rfl⟩ | ⟨r, rfl, hs⟩ | ⟨r, e, rfl, hj⟩
  · rw [evaluate_post_error]
    exact ⟨rfl, _, rfl⟩
  · obtain ⟨sc, js, tx⟩ := r
    rw [evaluate_non200 sc js tx q a hs]
    exact ⟨rfl, _, rfl⟩
  · obtain ⟨sc, js, tx⟩ := r
    by_cases h200 : sc = 200
    · subst h200
      have hj' : js = .error e := hj
      subst hj'
      rw [evaluate_json_error]
      exact ⟨rfl, _, rfl⟩
    · rw [evaluate_non200 sc js tx q a h200]
      exact ⟨rfl, _, rfl⟩

/-- Witness for C3 at a concrete failing world. -/
theorem fac_c3_never_raises_witness :
    (evaluate_with_llm_judge (.error (S "Connection timed out")) (S "q") (S "a")).is_solved
        = false
    ∧ ∃ msg, (evaluate_with_llm_judge (.error (S "Connection timed out")) (S "q") (S "a")).evaluation
        = S "Answer Status: Unsolved\nReason: " ++ msg :=
  fac_c3_never_raises (.error (S "Connection timed out")) (S "q") (S "a")
    (Or.inl ⟨S "Connection timed out", rfl⟩)

/--
C9: re-parsing the evaluation string of any `EvaluationResult` returned by
`evaluate_with_llm_judge` reproduces its verdict — on the success path the
verdict is by construction the parse of the evaluation text, and on every
error path the synthesized text `"Answer Status: Unsolved\nReason: ..."`
re-parses to `false` whatever the embedded message is, because `"unsolved"`
is checked before `"solved"`.
-/
theorem fac_c9_reparse_roundtrip (world : Except (List Char) HttpResponse)
    (q a : List Char) :
    parse_evaluation_result (evaluate_with_llm_judge world q a).evaluation
      = (evaluate_with_llm_judge world q a).is_solved := by
  cases world with
  | error e =>
    rw [evaluate_post_error]
    exact parse_unsolved_msg _
  | ok r =>
    obtain ⟨sc, js, tx⟩ := r
    by_cases h200 : sc = 200
    · subst h200
      cases js with
      | error e =>
        rw [evaluate_json_error]
        exact parse_unsolved_msg _
      | ok result =>
        rw [evaluate_success]
    · rw [evaluate_non200 sc js tx q a h200]
      exact parse_unsolved_msg _

/--
C10: the judge client takes the success path (JSON extraction and verdict
parsing) exactly when the HTTP status code is `200`; for every other status
code — including other 2xx codes such as 201 or 204 — it returns the
unsolved result embedding the status code and the response body.
-/
theorem fac_c10_status_gate (r : HttpResponse) (q a : List Char) :
    (r.status_code ≠ 200 →
      evaluate_with_llm_judge (.ok r) q a
        = mkUnsolved (S "API call failed: " ++ S (Nat.repr r.status_code)
            ++ S " - " ++ r.text))
    ∧ (∀ result, r.status_code = 200 → r.json = .ok result →
      evaluate_with_llm_judge (.ok r) q a
        = ⟨truncateAtMarker (S "Answer Status:") (extractText result),
           parse_evaluation_result
             (truncateAtMarker (S "Answer Status:") (extractText result))⟩) := by
  obtain ⟨sc, js, tx⟩ := r
  constructor
  · intro h
    exact evaluate_non200 sc js tx q a h
  · intro result h200 hj
    have h200' : sc = 200 := h200
    subst h200'
    have hj' : js = .ok result := hj
    subst hj'
    exact evaluate_success result tx q a

/-- Witness for C10 at the 2xx status code 201. -/
theorem fac_c10_status_gate_witness :
    evaluate_with_llm_judge (.ok ⟨201, .ok [], S "created"⟩) (S "q") (S "a")
      = mkUnsolved (S "API call failed: " ++ S (Nat.repr 201) ++ S " - " ++ S "created") :=
  (fac_c10_status_gate ⟨201, .ok [], S "created"⟩ (S "q") (S "a")).1 (by decide)

/--
C2 fails on the code as stated: if the `log_verbose` call at line 123 —
made *after* the boolean was already appended at line 121 — raises, the
`except` handler appends a second `False`, so one `register_measurement`
call appends two booleans.  Concretely, with a judge-call failure and a
failing `log_verbose`, a run starting from the empty log ends with
`[false, false]`.
-/
theorem fac_c2_counterexample :
    register_measurement ⟨some [], some [], .error (S "boom"), false, true⟩ (S "q") []
      = [false, false] := by
  have he := evaluate_post_error (S "boom") (S "q") []
  simp [register_measurement, register_measurement_body, he, mkUnsolved]

/--
C2 (amended): a `register_measurement` call appends exactly one boolean
whenever the failure (if any) occurs before the append — answer extraction,
`strip_think`, the judge call or parsing (the latter two are converted
internally and cannot raise) — and also when the whole body succeeds; but
when the body reaches the append and one of the two logging calls made after
it raises, exactly two booleans are appended (the recorded verdict plus the
handler's `False`).  In particular the log never loses an entry.
-/
theorem fac_c2_append_count (env : RegisterEnv) (q : List Char) (qr : List Bool) :
    (register_measurement env q qr).length
      = qr.length + (if env.extract_result.isSome
                        ∧ env.strip_result.isSome
                        ∧ (env.log_verbose_ok = false ∨ env.log_judge_output_ok = false)
                     then 2 else 1) := by
  obtain ⟨ext, stp, w, lv, lj⟩ := env
  cases ext <;> cases stp <;> cases lv <;> cases lj <;>
    simp [register_measurement, register_measurement_body]
